import Mathlib

/-!
Verification of the STM32H750 QSPI flash loader (`Core/Src/qspi.c`): a
shallow embedding of the bus-transaction layer, the flash protocol engine
(`QSPI_WaitWhileBusy`, `QSPI_WriteEnable`, `QSPI_Erase4K_4B`,
`QSPI_PageProgram_4B`, `QSPI_Read_4B`) and the self-test orchestrator
(`MT25Q_RunSelfTest`), together with theorems settling the specification's
claims about them.

Machine integers are modelled as `Nat` (all values involved are bytes or
32-bit addresses; no arithmetic here can overflow).  Time is a monotone
millisecond tick counter (`HAL_GetTick`), modelled as a `Nat` clock that
advances by one transaction latency `lat` per status-poll transaction.
The status register observed by a poll completing at tick `t` is given by
an environment function `sr : Nat → Option Nat`, where `none` models a
transport fault (`HAL_ERROR` from the HAL command/receive).
-/

set_option maxRecDepth 100000

/-- `HAL_StatusTypeDef` of the STM32 HAL: the four status codes. -/
inductive HAL where
  | ok
  | error
  | busy
  | timeout
  deriving DecidableEq, Repr

/-- Modelled from the spec: page-program granularity constant `TEST_PAGE_SIZE`
from the missing header `qspi.h` ("page size fixed at 256 bytes"). -/
def TEST_PAGE_SIZE : Nat := 256

/-- Modelled from the spec: the fixed self-test address `TEST_ADDR` from the
missing header `qspi.h` ("erase 4 KiB at address 0x00001000"). -/
def TEST_ADDR : Nat := 0x00001000

/-- Modelled from the spec: erase granularity ("fixed at 4096 bytes"). -/
def SUBSECTOR_SIZE : Nat := 4096

/-- Modelled from the spec: status-register bit 0 is Write-In-Progress. -/
def SR_WIP_MASK : Nat := 1

/-- Modelled from the spec: status-register bit 1 is Write-Enable-Latch. -/
def SR_WEL_MASK : Nat := 2

/-- Modelled from the spec: reset-enable instruction byte (`qspi.h`). -/
def CMD_RESET_ENABLE : Nat := 0x66

/-- Modelled from the spec: reset-memory instruction byte (`qspi.h`). -/
def CMD_RESET_MEMORY : Nat := 0x99

/-- Modelled from the spec: read-identity instruction byte (`qspi.h`). -/
def CMD_READ_ID : Nat := 0x9E

/-- Modelled from the spec: read-status instruction byte (`qspi.h`). -/
def CMD_READ_STATUS_REG : Nat := 0x05

/-- Modelled from the spec: write-enable instruction byte (`qspi.h`). -/
def CMD_WRITE_ENABLE : Nat := 0x06

/-- Modelled from the spec: enable-4-byte-address instruction byte
(source comment: "Enter 4-byte address mode (0xB7)"). -/
def CMD_ENABLE_4BYTE_ADDR : Nat := 0xB7

/-- Modelled from the spec: 4-byte-address subsector-erase instruction byte
(source comment: "4-byte opcode 0x21"). -/
def CMD_SUBSECTOR_ERASE_4K_4B : Nat := 0x21

/-- Modelled from the spec: 4-byte-address page-program instruction byte
(source comment: "0x12"). -/
def CMD_PAGE_PROGRAM_4B : Nat := 0x12

/-- Modelled from the spec: 4-byte-address read instruction byte
(source comment: "0x13 (slow read, no dummy)"). -/
def CMD_READ_DATA_4B : Nat := 0x13

/-- Address-phase mode of a `QSPI_CommandTypeDef`:
`QSPI_ADDRESS_NONE` or `QSPI_ADDRESS_1_LINE`. -/
inductive QSPIAddressMode where
  | none
  | oneLine
  deriving DecidableEq, Repr

/-- Data-phase mode of a `QSPI_CommandTypeDef`:
`QSPI_DATA_NONE` or `QSPI_DATA_1_LINE`. -/
inductive QSPIDataMode where
  | none
  | oneLine
  deriving DecidableEq, Repr

/-- The fields of `QSPI_CommandTypeDef` that the source assigns.  The C
struct is zero-initialised (`= {0}`) and fields are then assigned; the
`Address` field is modelled as `Option Nat`, `Option.none` standing for
"left at its zero initialisation, no address phase configured". -/
structure QSPICommand where
  Instruction : Nat
  AddressMode : QSPIAddressMode
  Address : Option Nat
  DataMode : QSPIDataMode
  NbData : Nat
  DummyCycles : Nat
  deriving DecidableEq, Repr

/-- The command built by `QSPI_SendSimple`: instruction only, no address,
no data. -/
def sendSimpleCmd (instruction : Nat) : QSPICommand :=
  { Instruction := instruction
    AddressMode := QSPIAddressMode.none
    Address := Option.none
    DataMode := QSPIDataMode.none
    NbData := 0
    DummyCycles := 0 }

/-- The command built by `QSPI_ReadStatus`: read-status instruction,
no address, 1-byte read phase. -/
def readStatusCmd : QSPICommand :=
  { Instruction := CMD_READ_STATUS_REG
    AddressMode := QSPIAddressMode.none
    Address := Option.none
    DataMode := QSPIDataMode.oneLine
    NbData := 1
    DummyCycles := 0 }

/-- The command built by `QSPI_ReadID`: read-identity instruction,
no address, 3-byte read phase. -/
def readIdCmd : QSPICommand :=
  { Instruction := CMD_READ_ID
    AddressMode := QSPIAddressMode.none
    Address := Option.none
    DataMode := QSPIDataMode.oneLine
    NbData := 3
    DummyCycles := 0 }

/-- The command built by `QSPI_Erase4K_4B`: subsector-erase instruction,
32-bit address, no data phase. -/
def erase4KCmd (addr : Nat) : QSPICommand :=
  { Instruction := CMD_SUBSECTOR_ERASE_4K_4B
    AddressMode := QSPIAddressMode.oneLine
    Address := Option.some addr
    DataMode := QSPIDataMode.none
    NbData := 0
    DummyCycles := 0 }

/-- The command built by `QSPI_PageProgram_4B`: page-program instruction,
32-bit address, write-data phase of `size` bytes. -/
def pageProgramCmd (addr size : Nat) : QSPICommand :=
  { Instruction := CMD_PAGE_PROGRAM_4B
    AddressMode := QSPIAddressMode.oneLine
    Address := Option.some addr
    DataMode := QSPIDataMode.oneLine
    NbData := size
    DummyCycles := 0 }

/-- The command built by `QSPI_Read_4B`: read instruction, 32-bit address,
read-data phase of `size` bytes, no dummy cycles. -/
def read4BCmd (addr size : Nat) : QSPICommand :=
  { Instruction := CMD_READ_DATA_4B
    AddressMode := QSPIAddressMode.oneLine
    Address := Option.some addr
    DataMode := QSPIDataMode.oneLine
    NbData := size
    DummyCycles := 0 }

/-- The structural invariant of §3 of the spec: an address is present iff
the address-width is not `none`, and the data-length is positive iff the
data-direction is not `none`. -/
def cmdInvariant (c : QSPICommand) : Prop :=
  (c.Address.isSome = true ↔ c.AddressMode ≠ QSPIAddressMode.none) ∧
  (0 < c.NbData ↔ c.DataMode ≠ QSPIDataMode.none)

instance (c : QSPICommand) : Decidable (cmdInvariant c) := by
  unfold cmdInvariant
  infer_instance

example : cmdInvariant (sendSimpleCmd CMD_WRITE_ENABLE) := by decide
example : cmdInvariant (read4BCmd TEST_ADDR 256) := by decide
example : ¬ cmdInvariant (read4BCmd TEST_ADDR 0) := by decide

/-- Result of a polling loop: the returned `HAL_StatusTypeDef`, the tick at
which the loop returned, and the number of status-register reads performed
(ghost observables of the execution). -/
structure WaitResult where
  status : HAL
  clk : Nat
  polls : Nat
  deriving DecidableEq, Repr

/-- The body of `QSPI_WaitWhileBusy`'s do-while loop.  One iteration: a
`QSPI_ReadStatus` transaction completes at tick `clk + lat` and observes
`sr (clk + lat)` (`Option.none` models a HAL fault, returning `HAL_ERROR`);
if WIP is clear return `HAL_OK`; otherwise re-check the deadline
`HAL_GetTick() - start < timLimit` and either loop or return `HAL_TIMEOUT`.
`fuel` bounds the recursion; with `0 < lat` and `fuel = timLimit + 1` the
fuel never runs out (each iteration advances the clock, and the loop exits
once `clk - start` reaches `timLimit`). -/
def waitAux (sr : Nat → Option Nat) (lat start timLimit : Nat) :
    Nat → Nat → WaitResult
  | 0, clk => { status := HAL.timeout, clk := clk, polls := 0 }
  | fuel + 1, clk =>
    match sr (clk + lat) with
    | Option.none => { status := HAL.error, clk := clk + lat, polls := 1 }
    | Option.some v =>
      if v &&& SR_WIP_MASK = 0 then
        { status := HAL.ok, clk := clk + lat, polls := 1 }
      else if clk + lat - start < timLimit then
        let r := waitAux sr lat start timLimit fuel (clk + lat)
        { status := r.status, clk := r.clk, polls := r.polls + 1 }
      else
        { status := HAL.timeout, clk := clk + lat, polls := 1 }

/-- `QSPI_WaitWhileBusy(timeout_ms)` entered at tick `start`: polls the
status register until WIP clears or the deadline `timeout_ms` (measured
from loop entry) is crossed. -/
def QSPI_WaitWhileBusy (sr : Nat → Option Nat) (lat start timeout_ms : Nat) :
    WaitResult :=
  waitAux sr lat start timeout_ms (timeout_ms + 1) start

example : QSPI_WaitWhileBusy (fun _ => Option.some 0) 1 7 100 =
    { status := HAL.ok, clk := 8, polls := 1 } := by decide
example : QSPI_WaitWhileBusy (fun u => if u < 5 then Option.some 1 else Option.some 0)
    1 0 100 = { status := HAL.ok, clk := 5, polls := 5 } := by decide
example : QSPI_WaitWhileBusy (fun _ => Option.some 1) 1 0 3 =
    { status := HAL.timeout, clk := 3, polls := 3 } := by decide

/-- If WIP is never observed clear (and no poll faults), the loop returns
`HAL_TIMEOUT`, at a tick at most `start + timLimit + lat`. -/
theorem waitAux_timeout (sr : Nat → Option Nat) (lat start timLimit : Nat)
    (hbusy : ∀ u, ∃ v, sr u = Option.some v ∧ v &&& SR_WIP_MASK ≠ 0) :
    ∀ fuel clk, clk ≤ start + timLimit →
      (waitAux sr lat start timLimit fuel clk).status = HAL.timeout ∧
      (waitAux sr lat start timLimit fuel clk).clk ≤ start + timLimit + lat := by
  intro fuel
  induction fuel with
  | zero =>
    intro clk h2
    exact ⟨rfl, by simpa [waitAux] using Nat.le_add_right_of_le h2⟩
  | succ f ih =>
    intro clk h2
    obtain ⟨v, hsr, hv⟩ := hbusy (clk + lat)
    unfold waitAux
    simp only [hsr]
    rw [if_neg hv]
    by_cases hc : clk + lat - start < timLimit
    · rw [if_pos hc]
      simpa using ih (clk + lat) (by omega)
    · rw [if_neg hc]
      refine ⟨rfl, ?_⟩
      show clk + lat ≤ start + timLimit + lat
      omega

/-- If WIP is observed set before relative time `t` and clear from `t`
onward, with `t < timLimit`, the loop returns `HAL_OK` at a tick at most
`start + t + lat`. -/
theorem waitAux_ok (sr : Nat → Option Nat) (lat start timLimit t : Nat)
    (ht : t < timLimit)
    (hbusy : ∀ u, u < start + t → ∃ v, sr u = Option.some v ∧ v &&& SR_WIP_MASK ≠ 0)
    (hclear : ∀ u, start + t ≤ u → ∃ v, sr u = Option.some v ∧ v &&& SR_WIP_MASK = 0) :
    ∀ fuel clk, start ≤ clk → (clk < start + t ∨ clk = start) →
      start + t < clk + fuel * lat →
      (waitAux sr lat start timLimit fuel clk).status = HAL.ok ∧
      (waitAux sr lat start timLimit fuel clk).clk ≤ start + t + lat := by
  intro fuel
  induction fuel with
  | zero =>
    intro clk h0 h1 h2
    exact absurd h2 (by omega)
  | succ f ih =>
    intro clk h0 h1 h2
    by_cases hcl : start + t ≤ clk + lat
    · obtain ⟨v, hsr, hv⟩ := hclear (clk + lat) hcl
      unfold waitAux
      simp only [hsr]
      rw [if_pos hv]
      refine ⟨rfl, ?_⟩
      show clk + lat ≤ start + t + lat
      omega
    · push_neg at hcl
      obtain ⟨v, hsr, hv⟩ := hbusy (clk + lat) hcl
      unfold waitAux
      have hc : clk + lat - start < timLimit := by omega
      simp only [hsr]
      rw [if_neg hv, if_pos hc]
      have hmul : (f + 1) * lat = f * lat + lat := by ring
      simpa using ih (clk + lat) (by omega) (Or.inl hcl) (by omega)

/-- C3: for every timeout and status trace, `wait_while_busy` returns `Ok`
as soon as a poll observes WIP clear — if WIP clears at relative time
`t < timeout` it returns `Ok` by tick `start + t + lat` (one
polling-transaction latency past `t`) — and if WIP never clears it returns
`Timeout` by tick `start + timeout_ms + lat` (the deadline plus one
transaction latency). -/
theorem C3_wait_while_busy_latency (sr : Nat → Option Nat)
    (lat start timeout_ms t : Nat) (hlat : 0 < lat) :
    (t < timeout_ms →
      (∀ u, u < start + t → ∃ v, sr u = Option.some v ∧ v &&& SR_WIP_MASK ≠ 0) →
      (∀ u, start + t ≤ u → ∃ v, sr u = Option.some v ∧ v &&& SR_WIP_MASK = 0) →
      (QSPI_WaitWhileBusy sr lat start timeout_ms).status = HAL.ok ∧
      (QSPI_WaitWhileBusy sr lat start timeout_ms).clk ≤ start + t + lat) ∧
    ((∀ u, ∃ v, sr u = Option.some v ∧ v &&& SR_WIP_MASK ≠ 0) →
      (QSPI_WaitWhileBusy sr lat start timeout_ms).status = HAL.timeout ∧
      (QSPI_WaitWhileBusy sr lat start timeout_ms).clk ≤ start + timeout_ms + lat) := by
  constructor
  · intro ht hbusy hclear
    have hfuel : start + t < start + (timeout_ms + 1) * lat := by
      have h1 : timeout_ms + 1 ≤ (timeout_ms + 1) * lat :=
        Nat.le_mul_of_pos_right (timeout_ms + 1) hlat
      omega
    exact waitAux_ok sr lat start timeout_ms t ht hbusy hclear
      (timeout_ms + 1) start le_rfl (Or.inr rfl) hfuel
  · intro hbusy
    exact waitAux_timeout sr lat start timeout_ms hbusy
      (timeout_ms + 1) start (by omega)

/-- A simulated device whose WIP bit is set before tick 12 and clear from
tick 12 onward. -/
def srClearsAt12 : Nat → Option Nat :=
  fun u => if u < 12 then Option.some 1 else Option.some 0

/-- A simulated device whose WIP bit never clears. -/
def srAlwaysBusy : Nat → Option Nat :=
  fun _ => Option.some 1

/-- Witness for C3 at concrete inputs: a device clearing WIP at tick 12
(relative time 2 from start 10) yields `Ok` by tick 13; a device that never
clears yields `Timeout` by tick `0 + 3 + 1`. -/
theorem C3_wait_while_busy_latency_witness :
    ((QSPI_WaitWhileBusy srClearsAt12 1 10 5).status = HAL.ok ∧
      (QSPI_WaitWhileBusy srClearsAt12 1 10 5).clk ≤ 13) ∧
    ((QSPI_WaitWhileBusy srAlwaysBusy 1 0 3).status = HAL.timeout ∧
      (QSPI_WaitWhileBusy srAlwaysBusy 1 0 3).clk ≤ 4) := by
  constructor
  · exact (C3_wait_while_busy_latency srClearsAt12 1 10 5 2 (by decide)).1
      (by decide)
      (fun u hu => ⟨1, by simp [srClearsAt12, hu], by decide⟩)
      (fun u hu => ⟨0, by simp [srClearsAt12, Nat.not_lt.mpr hu], by decide⟩)
  · exact (C3_wait_while_busy_latency srAlwaysBusy 1 0 3 0 (by decide)).2
      (fun u => ⟨1, rfl, by decide⟩)

/-- C10: for every timeout value, 0 included, `wait_while_busy` performs at
least one status-register read (the loop is do-while: the deadline check
never prevents the first poll), and returns `Ok` if that first read already
observes WIP clear. -/
theorem C10_first_poll_before_deadline (sr : Nat → Option Nat)
    (lat start timeout_ms : Nat) :
    1 ≤ (QSPI_WaitWhileBusy sr lat start timeout_ms).polls ∧
    (∀ v, sr (start + lat) = Option.some v → v &&& SR_WIP_MASK = 0 →
      QSPI_WaitWhileBusy sr lat start timeout_ms =
        { status := HAL.ok, clk := start + lat, polls := 1 }) := by
  constructor
  · unfold QSPI_WaitWhileBusy waitAux
    cases hsr : sr (start + lat) with
    | none => simp
    | some v =>
      by_cases hv : v &&& SR_WIP_MASK = 0
      · simp [hv]
      · simp only [hv, if_false]
        split <;> simp
  · intro v hsr hv
    unfold QSPI_WaitWhileBusy waitAux
    simp [hsr, hv]

/-- Witness for C10 with timeout 0: the first poll still happens and an
immediately-clear WIP yields `Ok`. -/
theorem C10_first_poll_before_deadline_witness :
    1 ≤ (QSPI_WaitWhileBusy (fun _ => Option.some 0) 1 5 0).polls ∧
    QSPI_WaitWhileBusy (fun _ => Option.some 0) 1 5 0 =
      { status := HAL.ok, clk := 6, polls := 1 } := by
  refine ⟨(C10_first_poll_before_deadline (fun _ => Option.some 0) 1 5 0).1, ?_⟩
  exact (C10_first_poll_before_deadline (fun _ => Option.some 0) 1 5 0).2 0 rfl
    (by decide)

/-- A single transaction observed on the QSPI bus: a command phase
(`HAL_QSPI_Command`), a data transmit (`HAL_QSPI_Transmit`), or a data
receive of `n` bytes (`HAL_QSPI_Receive`). -/
inductive BusTx where
  | command (c : QSPICommand)
  | transmit (data : List Nat)
  | receive (n : Nat)
  deriving DecidableEq, Repr

/-- Environment in which an engine operation runs: the status-register
trace, the per-transaction latency, the `QSPI_TIMEOUT` constant of the
missing header `qspi.h` (spec: "a fixed short timeout"), and the outcomes
the HAL reports for the non-status transactions of the operation. -/
structure BusEnv where
  sr : Nat → Option Nat
  lat : Nat
  qt : Nat
  weSendOk : Bool
  cmdOk : Bool
  txOk : Bool
  rxOk : Bool

/-- Result of an engine operation: the returned `HAL_StatusTypeDef`, the
tick on return, and the bus transactions issued (ghost observables). -/
structure OpResult where
  status : HAL
  clk : Nat
  trace : List BusTx
  deriving DecidableEq, Repr

/-- The WEL-confirmation do-while loop of `QSPI_WriteEnable`: poll the
status register until WEL is observed set (`sr & SR_WEL_MASK` nonzero) or
`QSPI_TIMEOUT` elapses from `start`.  Same loop shape as `waitAux`; each
poll issues a read-status command and a 1-byte receive. -/
def weAux (sr : Nat → Option Nat) (lat start qt : Nat) : Nat → Nat → OpResult
  | 0, clk => { status := HAL.timeout, clk := clk, trace := [] }
  | fuel + 1, clk =>
    match sr (clk + lat) with
    | Option.none =>
      { status := HAL.error, clk := clk + lat
        trace := [BusTx.command readStatusCmd, BusTx.receive 1] }
    | Option.some v =>
      if v &&& SR_WEL_MASK ≠ 0 then
        { status := HAL.ok, clk := clk + lat
          trace := [BusTx.command readStatusCmd, BusTx.receive 1] }
      else if clk + lat - start < qt then
        let r := weAux sr lat start qt fuel (clk + lat)
        { status := r.status, clk := r.clk
          trace := BusTx.command readStatusCmd :: BusTx.receive 1 :: r.trace }
      else
        { status := HAL.timeout, clk := clk + lat
          trace := [BusTx.command readStatusCmd, BusTx.receive 1] }

/-- `QSPI_WriteEnable`: issue the write-enable instruction, then poll the
status register until WEL is observed set, bounded by `QSPI_TIMEOUT`
measured from the tick after the send. -/
def QSPI_WriteEnable (env : BusEnv) (clk : Nat) : OpResult :=
  if env.weSendOk = false then
    { status := HAL.error, clk := clk + env.lat
      trace := [BusTx.command (sendSimpleCmd CMD_WRITE_ENABLE)] }
  else
    let r := weAux env.sr env.lat (clk + env.lat) env.qt (env.qt + 1) (clk + env.lat)
    { status := r.status, clk := r.clk
      trace := BusTx.command (sendSimpleCmd CMD_WRITE_ENABLE) :: r.trace }

/-- `QSPI_Enable4ByteAddressing`: write-enable handshake, then the
address-mode-set instruction; any write-enable failure is returned as
`HAL_ERROR`. -/
def QSPI_Enable4ByteAddressing (env : BusEnv) (clk : Nat) : OpResult :=
  let we := QSPI_WriteEnable env clk
  if we.status ≠ HAL.ok then
    { status := HAL.error, clk := we.clk, trace := we.trace }
  else
    { status := if env.cmdOk then HAL.ok else HAL.error
      clk := we.clk + env.lat
      trace := we.trace ++ [BusTx.command (sendSimpleCmd CMD_ENABLE_4BYTE_ADDR)] }

/-- `QSPI_Erase4K_4B`: write-enable handshake, then the subsector-erase
command with a 32-bit address; any write-enable failure is returned as
`HAL_ERROR`. -/
def QSPI_Erase4K_4B (env : BusEnv) (clk addr : Nat) : OpResult :=
  let we := QSPI_WriteEnable env clk
  if we.status ≠ HAL.ok then
    { status := HAL.error, clk := we.clk, trace := we.trace }
  else
    { status := if env.cmdOk then HAL.ok else HAL.error
      clk := we.clk + env.lat
      trace := we.trace ++ [BusTx.command (erase4KCmd addr)] }

/-- `QSPI_PageProgram_4B`: reject `size == 0 || size > TEST_PAGE_SIZE`
before touching the bus; otherwise write-enable handshake, then the
page-program command and the data transmit. -/
def QSPI_PageProgram_4B (env : BusEnv) (clk addr : Nat) (data : List Nat)
    (size : Nat) : OpResult :=
  if size = 0 ∨ TEST_PAGE_SIZE < size then
    { status := HAL.error, clk := clk, trace := [] }
  else
    let we := QSPI_WriteEnable env clk
    if we.status ≠ HAL.ok then
      { status := HAL.error, clk := we.clk, trace := we.trace }
    else if env.cmdOk = false then
      { status := HAL.error, clk := we.clk + env.lat
        trace := we.trace ++ [BusTx.command (pageProgramCmd addr size)] }
    else
      { status := if env.txOk then HAL.ok else HAL.error
        clk := we.clk + 2 * env.lat
        trace := we.trace ++
          [BusTx.command (pageProgramCmd addr size), BusTx.transmit data] }

/-- `QSPI_Read_4B`: single read command with 32-bit address and a
receive phase of `size` bytes; no argument validation. -/
def QSPI_Read_4B (env : BusEnv) (clk addr size : Nat) : OpResult :=
  if env.cmdOk = false then
    { status := HAL.error, clk := clk + env.lat
      trace := [BusTx.command (read4BCmd addr size)] }
  else
    { status := if env.rxOk then HAL.ok else HAL.error
      clk := clk + 2 * env.lat
      trace := [BusTx.command (read4BCmd addr size), BusTx.receive size] }

/-- A bus transaction is data-mutating when it is the subsector-erase or
page-program command, or a data transmit. -/
def isMutatingTx : BusTx → Bool
  | BusTx.command c =>
      c.Instruction == CMD_SUBSECTOR_ERASE_4K_4B ||
      c.Instruction == CMD_PAGE_PROGRAM_4B
  | BusTx.transmit _ => true
  | BusTx.receive _ => false

/-- No transaction of the WEL-confirmation loop is data-mutating. -/
theorem weAux_no_mutating (sr : Nat → Option Nat) (lat start qt : Nat) :
    ∀ fuel clk, ∀ tx ∈ (weAux sr lat start qt fuel clk).trace,
      isMutatingTx tx = false := by
  intro fuel
  induction fuel with
  | zero => intro clk tx htx; simp [weAux] at htx
  | succ f ih =>
    intro clk tx htx
    unfold weAux at htx
    cases hsr : sr (clk + lat) with
    | none =>
      rw [hsr] at htx
      simp at htx
      rcases htx with h | h <;> simp [h, isMutatingTx, readStatusCmd,
        CMD_READ_STATUS_REG, CMD_SUBSECTOR_ERASE_4K_4B, CMD_PAGE_PROGRAM_4B]
    | some v =>
      simp only [hsr] at htx
      by_cases hv : v &&& SR_WEL_MASK ≠ 0
      · rw [if_pos hv] at htx
        simp at htx
        rcases htx with h | h <;> simp [h, isMutatingTx, readStatusCmd,
          CMD_READ_STATUS_REG, CMD_SUBSECTOR_ERASE_4K_4B, CMD_PAGE_PROGRAM_4B]
      · rw [if_neg hv] at htx
        by_cases hc : clk + lat - start < qt
        · rw [if_pos hc] at htx
          simp at htx
          rcases htx with h | h | h
          · simp [h, isMutatingTx, readStatusCmd, CMD_READ_STATUS_REG,
              CMD_SUBSECTOR_ERASE_4K_4B, CMD_PAGE_PROGRAM_4B]
          · simp [h, isMutatingTx]
          · exact ih (clk + lat) tx h
        · rw [if_neg hc] at htx
          simp at htx
          rcases htx with h | h <;> simp [h, isMutatingTx, readStatusCmd,
            CMD_READ_STATUS_REG, CMD_SUBSECTOR_ERASE_4K_4B, CMD_PAGE_PROGRAM_4B]

/-- No transaction of `QSPI_WriteEnable` is data-mutating: it issues only
the write-enable instruction and status polls. -/
theorem writeEnable_no_mutating (env : BusEnv) (clk : Nat) :
    ∀ tx ∈ (QSPI_WriteEnable env clk).trace, isMutatingTx tx = false := by
  intro tx htx
  unfold QSPI_WriteEnable at htx
  by_cases hw : env.weSendOk = false
  · rw [if_pos hw] at htx
    simp at htx
    simp [htx, isMutatingTx, sendSimpleCmd, CMD_WRITE_ENABLE,
      CMD_SUBSECTOR_ERASE_4K_4B, CMD_PAGE_PROGRAM_4B]
  · rw [if_neg hw] at htx
    simp only [List.mem_cons] at htx
    rcases htx with h | h
    · simp [h, isMutatingTx, sendSimpleCmd, CMD_WRITE_ENABLE,
        CMD_SUBSECTOR_ERASE_4K_4B, CMD_PAGE_PROGRAM_4B]
    · exact weAux_no_mutating env.sr env.lat (clk + env.lat) env.qt
        (env.qt + 1) (clk + env.lat) tx h

/-- If WEL is never observed set (and no poll faults), the WEL loop
returns `HAL_TIMEOUT`. -/
theorem weAux_timeout (sr : Nat → Option Nat) (lat start qt : Nat)
    (hwel : ∀ u, ∃ v, sr u = Option.some v ∧ v &&& SR_WEL_MASK = 0) :
    ∀ fuel clk, (weAux sr lat start qt fuel clk).status = HAL.timeout := by
  intro fuel
  induction fuel with
  | zero => intro clk; rfl
  | succ f ih =>
    intro clk
    obtain ⟨v, hsr, hv⟩ := hwel (clk + lat)
    unfold weAux
    simp only [hsr]
    rw [if_neg (by simpa using hv)]
    by_cases hc : clk + lat - start < qt
    · rw [if_pos hc]
      exact ih (clk + lat)
    · rw [if_neg hc]

/-- If WEL is never observed set, `QSPI_WriteEnable` returns `HAL_TIMEOUT`
when the write-enable send succeeded, `HAL_ERROR` when it did not. -/
theorem writeEnable_not_ok (env : BusEnv) (clk : Nat)
    (hwel : ∀ u, ∃ v, env.sr u = Option.some v ∧ v &&& SR_WEL_MASK = 0) :
    (QSPI_WriteEnable env clk).status =
      if env.weSendOk then HAL.timeout else HAL.error := by
  unfold QSPI_WriteEnable
  by_cases hw : env.weSendOk
  · simp only [hw, if_true, if_neg (by simp [hw] : ¬ env.weSendOk = false)]
    exact weAux_timeout env.sr env.lat (clk + env.lat) env.qt hwel
      (env.qt + 1) (clk + env.lat)
  · simp only [Bool.not_eq_true] at hw
    simp [hw]

/-- A simulated device whose WEL bit never latches: status register
always 0. -/
def envStuckWEL : BusEnv :=
  { sr := fun _ => Option.some 0, lat := 1, qt := 3
    weSendOk := true, cmdOk := true, txOk := true, rxOk := true }

/-- A simulated device whose WEL bit is already latched on every read:
status register always 2. -/
def envWELSet : BusEnv :=
  { sr := fun _ => Option.some 2, lat := 1, qt := 3
    weSendOk := true, cmdOk := true, txOk := true, rxOk := true }

/-- C4: on every status trace in which WEL never latches, `write_enable`
returns `Timeout` after its bounded poll, and a dependent `erase_region`
or `program_page` call never issues its data-mutating (erase command,
program command, or data transmit) transaction on the bus. -/
theorem C4_wel_never_latches_blocks_mutation (env : BusEnv) (clk addr : Nat)
    (data : List Nat) (size : Nat)
    (hwel : ∀ u, ∃ v, env.sr u = Option.some v ∧ v &&& SR_WEL_MASK = 0) :
    (env.weSendOk = true → (QSPI_WriteEnable env clk).status = HAL.timeout) ∧
    (∀ tx ∈ (QSPI_Erase4K_4B env clk addr).trace, isMutatingTx tx = false) ∧
    (∀ tx ∈ (QSPI_PageProgram_4B env clk addr data size).trace,
      isMutatingTx tx = false) := by
  have hwe := writeEnable_not_ok env clk hwel
  have hnok : (QSPI_WriteEnable env clk).status ≠ HAL.ok := by
    rw [hwe]
    by_cases h : env.weSendOk <;> simp [h]
  refine ⟨fun h => by rw [hwe, h]; simp, ?_, ?_⟩
  · intro tx htx
    simp only [QSPI_Erase4K_4B] at htx
    rw [if_pos hnok] at htx
    exact writeEnable_no_mutating env clk tx htx
  · intro tx htx
    simp only [QSPI_PageProgram_4B] at htx
    by_cases hs : size = 0 ∨ TEST_PAGE_SIZE < size
    · rw [if_pos hs] at htx
      simp at htx
    · rw [if_neg hs, if_pos hnok] at htx
      exact writeEnable_no_mutating env clk tx htx

/-- Witness for C4: the stuck-WEL device makes `write_enable` time out,
and the write-enable instruction itself is not data-mutating. -/
theorem C4_wel_never_latches_blocks_mutation_witness :
    (QSPI_WriteEnable envStuckWEL 0).status = HAL.timeout ∧
    isMutatingTx (BusTx.command (sendSimpleCmd CMD_WRITE_ENABLE)) = false := by
  have h := C4_wel_never_latches_blocks_mutation envStuckWEL 0 TEST_ADDR
    [0xAB] 1 (fun u => ⟨0, rfl, by decide⟩)
  exact ⟨h.1 rfl, h.2.1 (BusTx.command (sendSimpleCmd CMD_WRITE_ENABLE))
    (by decide)⟩

/-- C5: `program_page` with `data.length = 0` (or above the page size)
fails before any bus transaction: `HAL_ERROR` with an empty transaction
trace — neither the write-enable handshake nor the program command
touches the bus. -/
theorem C5_zero_length_program_rejected_early (env : BusEnv) (clk addr : Nat)
    (data : List Nat) (size : Nat) (h : size = 0 ∨ TEST_PAGE_SIZE < size) :
    QSPI_PageProgram_4B env clk addr data size =
      { status := HAL.error, clk := clk, trace := [] } := by
  unfold QSPI_PageProgram_4B
  rw [if_pos h]

/-- Witness for C5 at length 0. -/
theorem C5_zero_length_program_rejected_early_witness :
    QSPI_PageProgram_4B envStuckWEL 0 TEST_ADDR [] 0 =
      { status := HAL.error, clk := 0, trace := [] } :=
  C5_zero_length_program_rejected_early envStuckWEL 0 TEST_ADDR [] 0
    (Or.inl rfl)

/-- C6 counterexample: against a device whose WEL never latches,
`write_enable` itself returns `HAL_TIMEOUT`, but
`enable_32bit_addressing`, `erase_region` and `program_page` all return
`HAL_ERROR` to their caller — the Timeout kind is converted, not
surfaced. -/
theorem C6_counterexample :
    (QSPI_WriteEnable envStuckWEL 0).status = HAL.timeout ∧
    (QSPI_Enable4ByteAddressing envStuckWEL 0).status = HAL.error ∧
    (QSPI_Erase4K_4B envStuckWEL 0 TEST_ADDR).status = HAL.error ∧
    (QSPI_PageProgram_4B envStuckWEL 0 TEST_ADDR [0xAB] 1).status =
      HAL.error := by
  decide

/-- C6 (amended): when the WEL-latch deadline is exceeded inside
`enable_32bit_addressing`, `erase_region` or `program_page`, the
operation returns the generic `HAL_ERROR` to its caller — the `Timeout`
kind produced by the internal `write_enable` is converted, not
surfaced. -/
theorem C6_wel_timeout_converted_to_error (env : BusEnv) (clk addr : Nat)
    (data : List Nat) (size : Nat) :
    (QSPI_WriteEnable env clk).status = HAL.timeout →
      (QSPI_Enable4ByteAddressing env clk).status = HAL.error ∧
      (QSPI_Erase4K_4B env clk addr).status = HAL.error ∧
      (0 < size → size ≤ TEST_PAGE_SIZE →
        (QSPI_PageProgram_4B env clk addr data size).status = HAL.error) := by
  intro hto
  have hnok : (QSPI_WriteEnable env clk).status ≠ HAL.ok := by rw [hto]; simp
  refine ⟨?_, ?_, ?_⟩
  · simp only [QSPI_Enable4ByteAddressing]
    rw [if_pos hnok]
  · simp only [QSPI_Erase4K_4B]
    rw [if_pos hnok]
  · intro h1 h2
    have hs : ¬(size = 0 ∨ TEST_PAGE_SIZE < size) := by omega
    simp only [QSPI_PageProgram_4B]
    rw [if_neg hs, if_pos hnok]

/-- Witness for C6 (amended) at the stuck-WEL device. -/
theorem C6_wel_timeout_converted_to_error_witness :
    (QSPI_Enable4ByteAddressing envStuckWEL 0).status = HAL.error ∧
    (QSPI_Erase4K_4B envStuckWEL 0 TEST_ADDR).status = HAL.error ∧
    (QSPI_PageProgram_4B envStuckWEL 0 TEST_ADDR [0xAB] 1).status =
      HAL.error := by
  have h := C6_wel_timeout_converted_to_error envStuckWEL 0 TEST_ADDR
    [0xAB] 1 (by decide)
  exact ⟨h.1, h.2.1, h.2.2 (by decide) (by decide)⟩

/-- C1 counterexample: the write `0x10F8 + 16` crosses a 256-byte page
boundary (`0x10F8 % 256 + 16 = 264 > 256`), yet `QSPI_PageProgram_4B`
accepts it: with a ready device it returns `HAL_OK` and issues the
page-program command — there is no `InvalidArgument` rejection of
boundary-crossing writes. -/
theorem C1_counterexample :
    TEST_PAGE_SIZE < 0x10F8 % TEST_PAGE_SIZE + 16 ∧
    (QSPI_PageProgram_4B envWELSet 0 0x10F8 (List.replicate 16 0xAB) 16).status
      = HAL.ok ∧
    BusTx.command (pageProgramCmd 0x10F8 16) ∈
      (QSPI_PageProgram_4B envWELSet 0 0x10F8 (List.replicate 16 0xAB) 16).trace := by
  decide

/-- C1 (amended): `program_page` validates only the data length — it
fails (`HAL_ERROR`, nothing on the bus) when `size = 0` or
`size > TEST_PAGE_SIZE` — and performs no page-boundary check: for any
`0 < size ≤ TEST_PAGE_SIZE` with a successful write-enable handshake,
the program command is issued at `addr` even when `addr + size` crosses
a 256-byte page boundary (the boundary constraint is a caller
obligation). -/
theorem C1_only_size_checked_no_boundary_check (env : BusEnv)
    (clk addr : Nat) (data : List Nat) (size : Nat) :
    ((size = 0 ∨ TEST_PAGE_SIZE < size) →
      QSPI_PageProgram_4B env clk addr data size =
        { status := HAL.error, clk := clk, trace := [] }) ∧
    (0 < size → size ≤ TEST_PAGE_SIZE →
      (QSPI_WriteEnable env clk).status = HAL.ok →
      BusTx.command (pageProgramCmd addr size) ∈
        (QSPI_PageProgram_4B env clk addr data size).trace) := by
  constructor
  · intro h
    unfold QSPI_PageProgram_4B
    rw [if_pos h]
  · intro h1 h2 hwe
    have hs : ¬(size = 0 ∨ TEST_PAGE_SIZE < size) := by omega
    have hnok : ¬((QSPI_WriteEnable env clk).status ≠ HAL.ok) := by
      simpa using hwe
    simp only [QSPI_PageProgram_4B]
    rw [if_neg hs, if_neg hnok]
    by_cases hc : env.cmdOk = false
    · rw [if_pos hc]
      simp
    · rw [if_neg hc]
      simp

/-- Witness for C1 (amended): the boundary-crossing write at `0x10F8`
issues its program command. -/
theorem C1_only_size_checked_no_boundary_check_witness :
    BusTx.command (pageProgramCmd 0x10F8 16) ∈
      (QSPI_PageProgram_4B envWELSet 0 0x10F8 (List.replicate 16 0xAB) 16).trace :=
  (C1_only_size_checked_no_boundary_check envWELSet 0 0x10F8
    (List.replicate 16 0xAB) 16).2 (by decide) (by decide) (by decide)

/-- C9 counterexample: `read_region` called with length 0 constructs and
issues a command whose data-direction is read but whose data-length is 0
— the structural invariant fails on it. -/
theorem C9_counterexample :
    BusTx.command (read4BCmd TEST_ADDR 0) ∈
      (QSPI_Read_4B envWELSet 0 TEST_ADDR 0).trace ∧
    ¬ cmdInvariant (read4BCmd TEST_ADDR 0) := by
  decide

/-- C9 (amended): every command the program constructs satisfies the
structural invariant (address present iff address-width ≠ none,
data-length positive iff data-direction ≠ none), except that
`read_region` with length 0 — which no internal caller uses — violates
the data-length half; for positive lengths the read command satisfies it
too. -/
theorem C9_command_invariant (instruction a s : Nat) :
    cmdInvariant (sendSimpleCmd instruction) ∧
    cmdInvariant readStatusCmd ∧
    cmdInvariant readIdCmd ∧
    cmdInvariant (erase4KCmd a) ∧
    (0 < s → cmdInvariant (pageProgramCmd a s)) ∧
    (0 < s → cmdInvariant (read4BCmd a s)) := by
  refine ⟨?_, by decide, by decide, ?_, ?_, ?_⟩
  · simp [cmdInvariant, sendSimpleCmd]
  · simp [cmdInvariant, erase4KCmd]
  · intro hs
    simp [cmdInvariant, pageProgramCmd]
    omega
  · intro hs
    simp [cmdInvariant, read4BCmd]
    omega

/-- Witness for C9 (amended) at length 1. -/
theorem C9_command_invariant_witness :
    cmdInvariant (pageProgramCmd TEST_ADDR 1) ∧
    cmdInvariant (read4BCmd TEST_ADDR 1) :=
  ⟨(C9_command_invariant 0 TEST_ADDR 1).2.2.2.2.1 (by decide),
   (C9_command_invariant 0 TEST_ADDR 1).2.2.2.2.2 (by decide)⟩

/-- Engine-level operations the self-test orchestrator performs. -/
inductive EngineOp where
  | resetEnable
  | resetMemory
  | readId
  | enable4B
  | waitBusy (timeout_ms : Nat)
  | erase4K (addr : Nat)
  | readRegion (addr len : Nat)
  | pageProgram (addr : Nat) (data : List Nat)
  deriving DecidableEq, Repr

/-- Outcome reported by `MT25Q_RunSelfTest`: one constructor per
early-return site of the source, plus `success`.
`verifyFailedNoIndex` models the source's failure return when `memcmp`
reports a difference but the byte scan finds none (unreachable for
equal-length buffers). -/
inductive SelfTestResult where
  | resetFailed
  | readIdFailed
  | enable4BFailed
  | busyAfter4B
  | eraseFailed
  | eraseTimeout
  | readAfterEraseFailed
  | eraseVerifyFailed (offset observed : Nat)
  | programFailed
  | programTimeout
  | readAfterProgramFailed
  | verifyMismatch (offset wrote read : Nat)
  | verifyFailedNoIndex
  | success
  deriving DecidableEq, Repr

/-- Outcomes of the engine calls the self-test makes, in program order:
the device/bus behaviour the run executes against.  A `none` for a read
models a failed transaction; a `some` carries the bytes received. -/
structure SelfTestEnv where
  resetEnableOk : Bool
  resetMemoryOk : Bool
  readId : Option (Nat × Nat × Nat)
  enable4BOk : Bool
  wait4B : HAL
  eraseOk : Bool
  waitErase : HAL
  readAfterErase : Option (List Nat)
  programOk : Bool
  waitProg : HAL
  readAfterProgram : Option (List Nat)

/-- The test pattern of the source's step 4:
`out[i] = (uint8_t)(i ^ 0xA5)` for `i < TEST_PAGE_SIZE`. -/
def testPattern : List Nat :=
  (List.range TEST_PAGE_SIZE).map fun i => (i ^^^ 0xA5) % 256

/-- The erase-verify loop of the source: first index whose byte differs
from 0xFF, together with the byte observed there. -/
def checkErased : Nat → List Nat → Option (Nat × Nat)
  | _, [] => Option.none
  | i, b :: rest =>
    if b ≠ 0xFF then Option.some (i, b) else checkErased (i + 1) rest

/-- The program-verify scan of the source: first index where the written
and read-back bytes differ, with both bytes. -/
def firstDiff : Nat → List Nat → List Nat → Option (Nat × Nat × Nat)
  | _, [], _ => Option.none
  | _, _ :: _, [] => Option.none
  | i, a :: as, b :: bs =>
    if a ≠ b then Option.some (i, a, b) else firstDiff (i + 1) as bs

/-- The full sequence of engine operations of a successful self-test
run, in program order. -/
def selfTestOpsAll : List EngineOp :=
  [EngineOp.resetEnable, EngineOp.resetMemory, EngineOp.readId,
   EngineOp.enable4B, EngineOp.waitBusy 100, EngineOp.erase4K TEST_ADDR,
   EngineOp.waitBusy 5000, EngineOp.readRegion TEST_ADDR TEST_PAGE_SIZE,
   EngineOp.pageProgram TEST_ADDR testPattern, EngineOp.waitBusy 100,
   EngineOp.readRegion TEST_ADDR TEST_PAGE_SIZE]

/-- `MT25Q_RunSelfTest`: the fixed linear self-test sequence, each step
gated on the success of the previous.  Returns the reported outcome and
the engine operations attempted (in order). -/
def MT25Q_RunSelfTest (env : SelfTestEnv) : SelfTestResult × List EngineOp :=
  if env.resetEnableOk = false then
    (SelfTestResult.resetFailed, selfTestOpsAll.take 1)
  else if env.resetMemoryOk = false then
    (SelfTestResult.resetFailed, selfTestOpsAll.take 2)
  else
    match env.readId with
    | Option.none => (SelfTestResult.readIdFailed, selfTestOpsAll.take 3)
    | Option.some _ =>
      if env.enable4BOk = false then
        (SelfTestResult.enable4BFailed, selfTestOpsAll.take 4)
      else if env.wait4B ≠ HAL.ok then
        (SelfTestResult.busyAfter4B, selfTestOpsAll.take 5)
      else if env.eraseOk = false then
        (SelfTestResult.eraseFailed, selfTestOpsAll.take 6)
      else if env.waitErase ≠ HAL.ok then
        (SelfTestResult.eraseTimeout, selfTestOpsAll.take 7)
      else
        match env.readAfterErase with
        | Option.none =>
          (SelfTestResult.readAfterEraseFailed, selfTestOpsAll.take 8)
        | Option.some buf =>
          match checkErased 0 buf with
          | Option.some (i, b) =>
            (SelfTestResult.eraseVerifyFailed i b, selfTestOpsAll.take 8)
          | Option.none =>
            if env.programOk = false then
              (SelfTestResult.programFailed, selfTestOpsAll.take 9)
            else if env.waitProg ≠ HAL.ok then
              (SelfTestResult.programTimeout, selfTestOpsAll.take 10)
            else
              match env.readAfterProgram with
              | Option.none =>
                (SelfTestResult.readAfterProgramFailed, selfTestOpsAll)
              | Option.some inn =>
                if testPattern = inn then
                  (SelfTestResult.success, selfTestOpsAll)
                else
                  match firstDiff 0 testPattern inn with
                  | Option.some (i, w, r) =>
                    (SelfTestResult.verifyMismatch i w r, selfTestOpsAll)
                  | Option.none =>
                    (SelfTestResult.verifyFailedNoIndex, selfTestOpsAll)

/-- A fully healthy run: every step succeeds, the erased page reads back
all-0xFF, the programmed page reads back as the pattern written. -/
def envAllOk : SelfTestEnv :=
  { resetEnableOk := true, resetMemoryOk := true
    readId := Option.some (0x20, 0xBA, 0x20)
    enable4BOk := true, wait4B := HAL.ok
    eraseOk := true, waitErase := HAL.ok
    readAfterErase := Option.some (List.replicate TEST_PAGE_SIZE 0xFF)
    programOk := true, waitProg := HAL.ok
    readAfterProgram := Option.some testPattern }

example : (MT25Q_RunSelfTest envAllOk).1 = SelfTestResult.success := by decide

/-- `checkErased` returns `none` exactly when every byte is 0xFF. -/
theorem checkErased_eq_none (buf : List Nat) :
    ∀ n, checkErased n buf = Option.none ↔ ∀ b ∈ buf, b = 0xFF := by
  induction buf with
  | nil => intro n; simp [checkErased]
  | cons a rest ih =>
    intro n
    by_cases ha : a ≠ 0xFF
    · simp [checkErased, ha]
    · push_neg at ha
      simp [checkErased, ha, ih (n + 1)]

/-- `checkErased` reports the first non-0xFF byte: if `buf[i] = b ≠ 0xFF`
and every earlier byte is 0xFF, the scan started at `n` yields
`(n + i, b)`. -/
theorem checkErased_first (buf : List Nat) :
    ∀ n i b, buf[i]? = Option.some b → b ≠ 0xFF →
      (∀ j, j < i → buf[j]? = Option.some 0xFF) →
      checkErased n buf = Option.some (n + i, b) := by
  induction buf with
  | nil => intro n i b h _ _; simp at h
  | cons a rest ih =>
    intro n i b hget hb hprev
    cases i with
    | zero =>
      simp at hget
      subst hget
      simp [checkErased, hb]
    | succ i2 =>
      have ha : a = 0xFF := by
        have h0 := hprev 0 (Nat.succ_pos i2)
        simpa using h0
      simp at hget
      have hprev2 : ∀ j, j < i2 → rest[j]? = Option.some 0xFF := by
        intro j hj
        have := hprev (j + 1) (by omega)
        simpa using this
      have hrec := ih (n + 1) i2 b hget hb hprev2
      rw [show n + (i2 + 1) = n + 1 + i2 by omega]
      simpa [checkErased, ha] using hrec

/-- `firstDiff` pinpoints the first index at which two lists differ. -/
theorem firstDiff_first (as : List Nat) :
    ∀ bs n i w r, as[i]? = Option.some w → bs[i]? = Option.some r →
      w ≠ r → (∀ j, j < i → as[j]? = bs[j]?) →
      firstDiff n as bs = Option.some (n + i, w, r) := by
  induction as with
  | nil => intro bs n i w r h _ _ _; simp at h
  | cons a as2 ih =>
    intro bs n i w r ha hb hwr hprev
    cases bs with
    | nil => simp at hb
    | cons b bs2 =>
      cases i with
      | zero =>
        simp at ha hb
        subst ha
        subst hb
        simp [firstDiff, hwr]
      | succ i2 =>
        have hab : a = b := by
          have h0 := hprev 0 (Nat.succ_pos i2)
          simpa using h0
        simp at ha hb
        have hprev2 : ∀ j, j < i2 → as2[j]? = bs2[j]? := by
          intro j hj
          have := hprev (j + 1) (by omega)
          simpa using this
        have hrec := ih bs2 (n + 1) i2 w r ha hb hwr hprev2
        rw [show n + (i2 + 1) = n + 1 + i2 by omega]
        simpa [firstDiff, hab] using hrec

/-- The pattern holds one byte per page position. -/
theorem testPattern_length : testPattern.length = TEST_PAGE_SIZE := by
  simp [testPattern]

/-- Byte `i` of the pattern is `i XOR 0xA5` (the `uint8_t` cast `% 256`
is the identity below the page size). -/
theorem testPattern_get (i : Nat) (h : i < TEST_PAGE_SIZE) :
    testPattern[i]? = Option.some (i ^^^ 0xA5) := by
  have hx : i ^^^ 0xA5 < 256 := by
    have h1 : i < 2 ^ 8 := h
    have h2 : (0xA5 : Nat) < 2 ^ 8 := by decide
    exact Nat.bitwise_lt h1 h2
  simp [testPattern, List.getElem?_range h, Nat.mod_eq_of_lt hx]

/-- C7: the orchestrator is fail-fast.  A failed read-identity halts the
run after step 2 — result `readIdFailed`, only reset and read-identity
attempted, no erase or program.  In general the erase step is attempted
only if reset, identify, 4-byte-mode and its busy-wait all succeeded,
and the program step only if additionally the erase, its busy-wait, the
read-back and the erase-verify succeeded. -/
theorem C7_fail_fast_gating (env : SelfTestEnv) :
    (env.resetEnableOk = true → env.resetMemoryOk = true →
      env.readId = Option.none →
      MT25Q_RunSelfTest env =
        (SelfTestResult.readIdFailed,
          [EngineOp.resetEnable, EngineOp.resetMemory, EngineOp.readId])) ∧
    (∀ a, EngineOp.erase4K a ∈ (MT25Q_RunSelfTest env).2 →
      env.resetEnableOk = true ∧ env.resetMemoryOk = true ∧
      env.readId ≠ Option.none ∧ env.enable4BOk = true ∧
      env.wait4B = HAL.ok) ∧
    (∀ a d, EngineOp.pageProgram a d ∈ (MT25Q_RunSelfTest env).2 →
      env.eraseOk = true ∧ env.waitErase = HAL.ok ∧
      ∃ buf, env.readAfterErase = Option.some buf ∧
        checkErased 0 buf = Option.none) := by
  refine ⟨?_, ?_, ?_⟩
  · intro h1 h2 h3
    simp [MT25Q_RunSelfTest, h1, h2, h3, selfTestOpsAll]
  · intro a ha
    by_cases h1 : env.resetEnableOk = false
    · simp [MT25Q_RunSelfTest, h1, selfTestOpsAll] at ha
    · by_cases h2 : env.resetMemoryOk = false
      · simp [MT25Q_RunSelfTest, h1, h2, selfTestOpsAll] at ha
      · cases h3 : env.readId with
        | none => simp [MT25Q_RunSelfTest, h1, h2, h3, selfTestOpsAll] at ha
        | some idv =>
          by_cases h4 : env.enable4BOk = false
          · simp [MT25Q_RunSelfTest, h1, h2, h3, h4, selfTestOpsAll] at ha
          · by_cases h5 : env.wait4B = HAL.ok
            · exact ⟨by simpa using h1, by simpa using h2, by simp [h3],
                by simpa using h4, h5⟩
            · simp [MT25Q_RunSelfTest, h1, h2, h3, h4, h5, selfTestOpsAll] at ha
  · intro a d ha
    by_cases h1 : env.resetEnableOk = false
    · simp [MT25Q_RunSelfTest, h1, selfTestOpsAll] at ha
    · by_cases h2 : env.resetMemoryOk = false
      · simp [MT25Q_RunSelfTest, h1, h2, selfTestOpsAll] at ha
      · cases h3 : env.readId with
        | none => simp [MT25Q_RunSelfTest, h1, h2, h3, selfTestOpsAll] at ha
        | some idv =>
          by_cases h4 : env.enable4BOk = false
          · simp [MT25Q_RunSelfTest, h1, h2, h3, h4, selfTestOpsAll] at ha
          · by_cases h5 : env.wait4B = HAL.ok
            · by_cases h6 : env.eraseOk = false
              · simp [MT25Q_RunSelfTest, h1, h2, h3, h4, h5, h6,
                  selfTestOpsAll] at ha
              · by_cases h7 : env.waitErase = HAL.ok
                · cases h8 : env.readAfterErase with
                  | none =>
                    simp [MT25Q_RunSelfTest, h1, h2, h3, h4, h5, h6, h7, h8,
                      selfTestOpsAll] at ha
                  | some buf =>
                    cases h9 : checkErased 0 buf with
                    | none =>
                      exact ⟨by simpa using h6, h7, buf, rfl, h9⟩
                    | some p =>
                      simp [MT25Q_RunSelfTest, h1, h2, h3, h4, h5, h6, h7, h8,
                        h9, selfTestOpsAll] at ha
                · simp [MT25Q_RunSelfTest, h1, h2, h3, h4, h5, h6, h7,
                    selfTestOpsAll] at ha
            · simp [MT25Q_RunSelfTest, h1, h2, h3, h4, h5, selfTestOpsAll] at ha

/-- The identity-fault scenario: a healthy device whose identify
transaction fails. -/
def envIdFault : SelfTestEnv :=
  { envAllOk with readId := Option.none }

/-- Witness for C7: the identity-fault run halts after step 2. -/
theorem C7_fail_fast_gating_witness :
    MT25Q_RunSelfTest envIdFault =
      (SelfTestResult.readIdFailed,
        [EngineOp.resetEnable, EngineOp.resetMemory, EngineOp.readId]) :=
  (C7_fail_fast_gating envIdFault).1 rfl rfl rfl

/-- C2 counterexample: in a fully healthy run the post-erase verify reads
only `TEST_PAGE_SIZE = 256` bytes at `TEST_ADDR`: the trace contains a
4 KiB erase and a 256-byte read, and no read of the full
`SUBSECTOR_SIZE = 4096` erased span — the span checked is one page, not
the erased 4 KiB region. -/
theorem C2_counterexample :
    EngineOp.erase4K TEST_ADDR ∈ (MT25Q_RunSelfTest envAllOk).2 ∧
    EngineOp.readRegion TEST_ADDR TEST_PAGE_SIZE ∈ (MT25Q_RunSelfTest envAllOk).2 ∧
    TEST_PAGE_SIZE = 256 ∧
    SUBSECTOR_SIZE = 4096 ∧
    EngineOp.readRegion TEST_ADDR SUBSECTOR_SIZE ∉ (MT25Q_RunSelfTest envAllOk).2 := by
  decide

/-- C2 (amended): after a successful erase and busy-wait, the self-test
reads back `TEST_PAGE_SIZE` (256) bytes — the first page of the erased
4 KiB subsector, not the whole of it — and verifies every byte of that
span equals the erased-state value 0xFF, aborting with the offset and
the observed byte at the first mismatch, and raising no erase-verify
failure when every byte of the span is 0xFF. -/
theorem C2_erase_verify_first_page (env : SelfTestEnv) (buf : List Nat)
    (h1 : env.resetEnableOk = true) (h2 : env.resetMemoryOk = true)
    (h3 : env.readId ≠ Option.none) (h4 : env.enable4BOk = true)
    (h5 : env.wait4B = HAL.ok) (h6 : env.eraseOk = true)
    (h7 : env.waitErase = HAL.ok)
    (h8 : env.readAfterErase = Option.some buf) :
    (EngineOp.readRegion TEST_ADDR TEST_PAGE_SIZE ∈ (MT25Q_RunSelfTest env).2) ∧
    (∀ i b, buf[i]? = Option.some b → b ≠ 0xFF →
      (∀ j, j < i → buf[j]? = Option.some 0xFF) →
      (MT25Q_RunSelfTest env).1 = SelfTestResult.eraseVerifyFailed i b) ∧
    ((∀ b ∈ buf, b = 0xFF) →
      ∀ i b, (MT25Q_RunSelfTest env).1 ≠ SelfTestResult.eraseVerifyFailed i b) := by
  obtain ⟨idv, hid⟩ : ∃ x, env.readId = Option.some x := by
    cases hx : env.readId with
    | none => exact absurd hx h3
    | some x => exact ⟨x, rfl⟩
  refine ⟨?_, ?_, ?_⟩
  · simp only [MT25Q_RunSelfTest, h1, h2, hid, h4, h5, h6, h7, h8]
    norm_num
    cases h9 : checkErased 0 buf with
    | none =>
      iterate 6 (all_goals (first | split | skip))
      all_goals simp [selfTestOpsAll]
    | some p =>
      obtain ⟨i, b⟩ := p
      simp [selfTestOpsAll]
  · intro i b hget hb hprev
    have hc := checkErased_first buf 0 i b hget hb hprev
    simp only [Nat.zero_add] at hc
    simp [MT25Q_RunSelfTest, h1, h2, hid, h4, h5, h6, h7, h8, hc]
  · intro hall i b
    have hc : checkErased 0 buf = Option.none := (checkErased_eq_none buf 0).mpr hall
    simp only [MT25Q_RunSelfTest, h1, h2, hid, h4, h5, h6, h7, h8, hc]
    norm_num
    iterate 6 (all_goals (first | split | skip))
    all_goals (intro h; exact SelfTestResult.noConfusion h)

/-- Witness for C2 (amended): the healthy run reads back the 256-byte
span after erasing. -/
theorem C2_erase_verify_first_page_witness :
    EngineOp.readRegion TEST_ADDR TEST_PAGE_SIZE ∈ (MT25Q_RunSelfTest envAllOk).2 :=
  (C2_erase_verify_first_page envAllOk (List.replicate TEST_PAGE_SIZE 0xFF)
    rfl rfl (by decide) rfl rfl rfl rfl rfl).1

/-- C8: under a healthy run up to the program step, the self-test
programs exactly one full page — the operation trace is the fixed
sequence ending with `pageProgram TEST_ADDR testPattern` followed by a
busy-wait and a read-back of the same page — where the pattern has
`TEST_PAGE_SIZE = 256` bytes with `byte[i] = i XOR 0xA5`; the run
reports `success` iff the read-back equals the pattern, and reports the
first mismatch with its offset, the expected byte and the observed
byte. -/
theorem C8_program_pattern_roundtrip (env : SelfTestEnv) (buf inn : List Nat)
    (h1 : env.resetEnableOk = true) (h2 : env.resetMemoryOk = true)
    (h3 : env.readId ≠ Option.none) (h4 : env.enable4BOk = true)
    (h5 : env.wait4B = HAL.ok) (h6 : env.eraseOk = true)
    (h7 : env.waitErase = HAL.ok)
    (h8 : env.readAfterErase = Option.some buf)
    (hbuf : ∀ b ∈ buf, b = 0xFF)
    (h9 : env.programOk = true) (h10 : env.waitProg = HAL.ok)
    (h11 : env.readAfterProgram = Option.some inn) :
    (MT25Q_RunSelfTest env).2 = selfTestOpsAll ∧
    testPattern.length = TEST_PAGE_SIZE ∧
    (∀ i, i < TEST_PAGE_SIZE → testPattern[i]? = Option.some (i ^^^ 0xA5)) ∧
    ((MT25Q_RunSelfTest env).1 = SelfTestResult.success ↔ testPattern = inn) ∧
    (∀ i w r, testPattern[i]? = Option.some w → inn[i]? = Option.some r →
      w ≠ r → (∀ j, j < i → testPattern[j]? = inn[j]?) →
      (MT25Q_RunSelfTest env).1 = SelfTestResult.verifyMismatch i w r) := by
  obtain ⟨idv, hid⟩ : ∃ x, env.readId = Option.some x := by
    cases hx : env.readId with
    | none => exact absurd hx h3
    | some x => exact ⟨x, rfl⟩
  have hc : checkErased 0 buf = Option.none := (checkErased_eq_none buf 0).mpr hbuf
  refine ⟨?_, testPattern_length, fun i hi => testPattern_get i hi, ?_, ?_⟩
  · simp only [MT25Q_RunSelfTest, h1, h2, hid, h4, h5, h6, h7, h8, hc, h9,
      h10, h11]
    norm_num
    iterate 3 (all_goals (first | split | skip))
    all_goals rfl
  · by_cases he : testPattern = inn
    · simp [MT25Q_RunSelfTest, h1, h2, hid, h4, h5, h6, h7, h8, hc, h9, h10,
        h11, he]
    · simp only [MT25Q_RunSelfTest, h1, h2, hid, h4, h5, h6, h7, h8, hc, h9,
        h10, h11]
      norm_num
      rw [if_neg he]
      cases hd : firstDiff 0 testPattern inn with
      | none => simp [he]
      | some p =>
        obtain ⟨i, w, r⟩ := p
        simp [he]
  · intro i w r hw hr hwr hprev
    have hne : testPattern ≠ inn := by
      intro he
      rw [he, hr] at hw
      exact hwr (Option.some.inj hw.symm)
    have hd := firstDiff_first testPattern inn 0 i w r hw hr hwr hprev
    simp only [Nat.zero_add] at hd
    simp [MT25Q_RunSelfTest, h1, h2, hid, h4, h5, h6, h7, h8, hc, h9, h10,
      h11, hne, hd]

/-- Witness for C8: the fully healthy run reports success. -/
theorem C8_program_pattern_roundtrip_witness :
    (MT25Q_RunSelfTest envAllOk).1 = SelfTestResult.success := by
  have h := C8_program_pattern_roundtrip envAllOk
    (List.replicate TEST_PAGE_SIZE 0xFF) testPattern
    rfl rfl (by decide) rfl rfl rfl rfl rfl
    (fun b hb => List.eq_of_mem_replicate hb) rfl rfl rfl
  exact h.2.2.2.1.mpr rfl
